import Mathlib

/-!
# Verification of the snipe strategy (`src/examples/snipe.rs`)

Shallow embedding of the `SnipeStrategy` event loop. Modelling conventions:

* `rust_decimal::Decimal` values (prices, sizes, percentages) are modelled as `ℚ`:
  the strategy only ever compares, adds, subtracts, multiplies and divides them, and
  the spec stipulates exact decimal arithmetic for these operations.
* `u64` counters and second timestamps are modelled as `ℕ`; every increment in the
  program adds 1 per processed event, so values stay far below `2^64` in any run the
  embedding needs to be faithful for.  The one place where `u64` wrap-around is
  actually reachable — the `orders_filled - 1` subtraction in the average-fill-time
  update — is modelled explicitly with release-mode wrapping semantics (`wrapSub1`).
* `avg_fill_time_ms` is an `f64` in the source; it is modelled as `ℚ`.  All concrete
  latencies used in theorems below are small integers, on which `f64` arithmetic is
  exact, except for the division by zero reachable in `updateStatsAfterExec`
  (Rust `f64` yields `inf`/`NaN` there, while `ℚ` yields `0`); theorems about that
  point therefore speak about the integer denominator, never about the quotient.
* The external collaborators (`OrderBookManager`, `FillEngine`, the clock and the
  random generator) are out of scope per the spec; their answers for one event are
  packaged into a `BookOracle` carried by the event.  `bookResult` stands for the
  combined outcome of `get_or_create_book` / `apply_delta` / `get_book`
  (an error in any of the three propagates before any strategy field is mutated),
  and `simResult` stands for the outcome of the transient-book rebuild plus
  `execute_market_order` (no strategy field is mutated between the
  `opportunities_detected` increment and the statistics update).
-/

deriving instance DecidableEq for Except

namespace PolyfillSnipe

/-- Order side (`polyfill_rs::types::Side`). -/
inductive Side
  | BUY
  | SELL
deriving DecidableEq

/-- Fill status returned by the execution simulator (`polyfill_rs::fill::FillStatus`). -/
inductive FillStatus
  | Filled
  | PartiallyFilled
  | Rejected
deriving DecidableEq

/-- One price level of an order-book snapshot. -/
structure Level where
  price : ℚ
  size : ℚ
deriving DecidableEq

/-- Book snapshot returned by `book_manager.get_book`: ordered bid and ask levels,
best first (bids descending, asks ascending). -/
structure Snapshot where
  bids : List Level
  asks : List Level
deriving DecidableEq

/-- Result of `fill_engine.execute_market_order`. -/
structure FillResult where
  status : FillStatus
  total_size : ℚ
  average_price : ℚ
deriving DecidableEq

/-- Errors of the external collaborators (`polyfill_rs::errors`); the payload keeps
distinct error values distinguishable so that "propagates unmodified" is meaningful. -/
inductive Err
  | book (code : ℕ)
  | sim (code : ℕ)
deriving DecidableEq

/-- `MarketOrderRequest` as built in `execute_snipe_order` (lines 373–379). -/
structure MarketOrderRequest where
  token_id : String
  side : Side
  amount : ℚ
  slippage_tolerance : Option ℚ
  client_id : Option String
deriving DecidableEq

/-- `SnipeStats` (lines 113–132). `avg_fill_time_ms` is `f64` in the source,
modelled as `ℚ` (see the header comment). -/
structure SnipeStats where
  opportunities_detected : ℕ
  orders_placed : ℕ
  orders_filled : ℕ
  total_volume : ℚ
  total_pnl : ℚ
  avg_fill_time_ms : ℚ
deriving DecidableEq

/-- `SnipeStats::default` (lines 134–145). -/
def SnipeStats.default : SnipeStats :=
  { opportunities_detected := 0
    orders_placed := 0
    orders_filled := 0
    total_volume := 0
    total_pnl := 0
    avg_fill_time_ms := 0 }

/-- The strategy state (lines 70–107).  The `book_manager` and `fill_engine` fields
are handles to the external collaborators and carry no strategy-visible state of
their own in this model; their per-event answers live in `BookOracle`. -/
structure SnipeStrategy where
  token_id : String
  max_spread_pct : ℚ
  min_order_size : ℚ
  max_order_size : ℚ
  stale_threshold : ℕ
  last_best_bid : Option ℚ
  last_best_ask : Option ℚ
  last_update : ℕ
  stats : SnipeStats
deriving DecidableEq

/-- `SnipeStrategy::new` (lines 159–188), restricted to the strategy-visible fields. -/
def SnipeStrategy.new (token_id : String) (max_spread_pct min_order_size max_order_size : ℚ)
    (stale_threshold : ℕ) : SnipeStrategy :=
  { token_id := token_id
    max_spread_pct := max_spread_pct
    min_order_size := min_order_size
    max_order_size := max_order_size
    stale_threshold := stale_threshold
    last_best_bid := none
    last_best_ask := none
    last_update := 0
    stats := SnipeStats.default }

/-- Environment answers consumed while processing one book-update event:
the post-update snapshot (or a book error), the clock readings, the random draw
and the simulator result (or a simulator error).  See the header comment. -/
structure BookOracle where
  bookResult : Except Err Snapshot
  now : ℕ
  now_millis : ℕ
  rand : ℕ
  simResult : Except Err FillResult
  fill_time : ℚ
deriving DecidableEq

/-- Observable outcome of one `process_update` call: the returned `Result<()>`,
the strategy state after the call (mutations made before an error persist, as the
source mutates `self` in place), the market-order request synthesized during the
call if any, and the staleness flag reported by a heartbeat if any. -/
structure StepOut where
  res : Except Err Unit
  state : SnipeStrategy
  placed : Option MarketOrderRequest
  stale : Option Bool
deriving DecidableEq

/-- `u64` subtraction of 1 with release-mode wrapping semantics: `0u64 - 1`
wraps to `2^64 - 1` (and panics under debug overflow checks).  Used to model
`self.stats.orders_filled - 1` at line 432, the only subtraction in the program
whose underflow is reachable.  Faithful for all values below `2^64`. -/
def wrapSub1 (n : ℕ) : ℕ :=
  if n = 0 then 2 ^ 64 - 1 else n - 1

/-- The statistics update performed after every simulated execution
(lines 424–433): `orders_placed += 1`, `orders_filled += 1` only on `Filled`,
then — unconditionally — `avg_fill_time_ms = (avg * (orders_filled - 1) + fill_time)
/ orders_filled`, reading the counter after the conditional increment.
When `orders_filled = 0`, the subtraction wraps and Rust divides by `0.0`
(`inf`/`NaN`); `ℚ` division by zero yields `0` here. -/
def updateStatsAfterExec (st : SnipeStats) (status : FillStatus) (fill_time : ℚ) : SnipeStats :=
  let placed := st.orders_placed + 1
  let filled := if status = FillStatus.Filled then st.orders_filled + 1 else st.orders_filled
  let total_time := st.avg_fill_time_ms * (wrapSub1 filled : ℚ) + fill_time
  { st with
      orders_placed := placed
      orders_filled := filled
      avg_fill_time_ms := total_time / (filled : ℚ) }

/-- `random_factor` (line 358): `Decimal::from(rand::random::<u64>() % 100) /
Decimal::from(100)`, as a function of the drawn `u64`. -/
def random_factor (rand : ℕ) : ℚ :=
  ((rand % 100 : ℕ) : ℚ) / 100

/-- Order size (lines 359–360): `min_order_size + (max_order_size - min_order_size)
* random_factor`. -/
def snipeOrderSize (minSize maxSize : ℚ) (rand : ℕ) : ℚ :=
  minSize + (maxSize - minSize) * random_factor rand

/-- Side selection (lines 363–369): SELL on a crossed book (`bid > ask`),
BUY otherwise. -/
def snipeSide (bid ask : ℚ) : Side :=
  if bid > ask then Side.SELL else Side.BUY

/-- The `MarketOrderRequest` built at lines 373–379. -/
def synthesizeRequest (s : SnipeStrategy) (bid ask : ℚ) (o : BookOracle) : MarketOrderRequest :=
  { token_id := s.token_id
    side := snipeSide bid ask
    amount := snipeOrderSize s.min_order_size s.max_order_size o.rand
    slippage_tolerance := some 1
    client_id := some ("snipe_" ++ toString o.now_millis) }

/-- `execute_snipe_order` (lines 355–444).  The transient-book rebuild and the
`execute_market_order` call touch no strategy field; their combined outcome is
`o.simResult`.  On `Err` the `?` operator at line 420 propagates it with the
statistics untouched; on `Ok` the statistics update of lines 424–433 runs. -/
def execute_snipe_order (s : SnipeStrategy) (bid ask : ℚ) (o : BookOracle) : StepOut :=
  let request := synthesizeRequest s bid ask o
  match o.simResult with
  | Except.error e => ⟨Except.error e, s, some request, none⟩
  | Except.ok result =>
      ⟨Except.ok (),
       { s with stats := updateStatsAfterExec s.stats result.status o.fill_time },
       some request, none⟩

/-- `check_opportunities` (lines 305–336): needs both quotes present,
`bid > 0 && ask > bid`, computes `spread_pct = (ask - bid) / bid * 100` and on
`spread_pct <= max_spread_pct` increments `opportunities_detected` and calls
`execute_snipe_order`; otherwise returns `Ok(())` without touching state. -/
def check_opportunities (s : SnipeStrategy) (o : BookOracle) : StepOut :=
  match s.last_best_bid, s.last_best_ask with
  | some bid, some ask =>
      if bid > 0 ∧ ask > bid then
        let spread_pct := (ask - bid) / bid * 100
        if spread_pct ≤ s.max_spread_pct then
          let s' := { s with stats :=
            { s.stats with opportunities_detected := s.stats.opportunities_detected + 1 } }
          execute_snipe_order s' bid ask o
        else ⟨Except.ok (), s, none, none⟩
      else ⟨Except.ok (), s, none, none⟩
  | _, _ => ⟨Except.ok (), s, none, none⟩

/-- The strategy-field mutations of `process_book_update` (lines 249–258): overwrite
`last_best_bid` / `last_best_ask` only when the respective side of the post-update
snapshot is nonempty (the source's `if let Some(..) = book.bids.first()`), then stamp
`last_update` with the current time. -/
def applyBookView (s : SnipeStrategy) (book : Snapshot) (now : ℕ) : SnipeStrategy :=
  let s1 := match book.bids.head? with
    | some lvl => { s with last_best_bid := some lvl.price }
    | none => s
  let s2 := match book.asks.head? with
    | some lvl => { s1 with last_best_ask := some lvl.price }
    | none => s1
  { s2 with last_update := now }

/-- `process_book_update` (lines 237–264): a book-view error propagates before any
strategy field is mutated; otherwise apply the snapshot reads and timestamp, then
check opportunities. -/
def process_book_update (s : SnipeStrategy) (o : BookOracle) : StepOut :=
  match o.bookResult with
  | Except.error e => ⟨Except.error e, s, none, none⟩
  | Except.ok book => check_opportunities (applyBookView s book o.now) o

/-- `process_trade` (lines 273–294): accumulate the fill size into `total_volume`.
The other `FillEvent` fields are only logged. -/
def process_trade (s : SnipeStrategy) (size : ℚ) : SnipeStrategy :=
  { s with stats := { s.stats with total_volume := s.stats.total_volume + size } }

/-- Data age (line 463): `now.saturating_sub(self.last_update)` — `ℕ` subtraction
is exactly `u64::saturating_sub` for values below `2^64`. -/
def staleAge (now last_update : ℕ) : ℕ :=
  now - last_update

/-- `check_stale_quotes` (lines 461–481): mutates nothing and always returns `Ok`;
its observable is the warning, emitted exactly when `age > stale_threshold`.
The returned `Bool` is that reported staleness flag. -/
def check_stale_quotes (s : SnipeStrategy) (now : ℕ) : Bool :=
  decide (staleAge now s.last_update > s.stale_threshold)

/-- Inbound events (`StreamMessage`), each carrying the environment answers the
source obtains during its processing: book updates carry a `BookOracle`
(delta fields other than `token_id` only feed the external book view, which
answers through `bookResult`); trades carry the fill size; heartbeats carry the
`time::now_secs()` reading (the message's own timestamp is ignored at line 218). -/
inductive Ev
  | bookUpdate (token_id : String) (o : BookOracle)
  | trade (token_id : String) (size : ℚ)
  | heartbeat (now : ℕ)
  | other

/-- `process_update` (lines 201–225): route by message kind, filtering book updates
and trades to the owned instrument; other variants are ignored. -/
def process_update (s : SnipeStrategy) (e : Ev) : StepOut :=
  match e with
  | Ev.bookUpdate tid o =>
      if tid = s.token_id then process_book_update s o else ⟨Except.ok (), s, none, none⟩
  | Ev.trade tid size =>
      if tid = s.token_id then ⟨Except.ok (), process_trade s size, none, none⟩
      else ⟨Except.ok (), s, none, none⟩
  | Ev.heartbeat now => ⟨Except.ok (), s, none, some (check_stale_quotes s now)⟩
  | Ev.other => ⟨Except.ok (), s, none, none⟩

/-- Run a sequence of events, keeping the state across failed events exactly as the
demo loop does (lines 640–664: an error is logged and processing continues). -/
def processAll (s : SnipeStrategy) (es : List Ev) : SnipeStrategy :=
  es.foldl (fun acc e => (process_update acc e).state) s

/-- The strategy instance constructed in `main` (lines 584–590). -/
def demoStrategy : SnipeStrategy :=
  SnipeStrategy.new "12345" 2 10 100 5

/-- A snapshot whose spread is exactly at the 2% threshold: bid 0.50, ask 0.51. -/
def tightBook : Snapshot :=
  ⟨[⟨1/2, 100⟩], [⟨51/100, 100⟩]⟩

/-- Oracle for a book update on `tightBook` whose simulated execution fully fills,
with the given measured latency (ms). -/
def oracleFill (t : ℚ) : BookOracle :=
  ⟨Except.ok tightBook, 1, 1000, 0, Except.ok ⟨FillStatus.Filled, 50, 51/100⟩, t⟩

/-- Oracle for a book update on `tightBook` whose simulated execution is rejected,
with the given measured latency (ms). -/
def oracleReject (t : ℚ) : BookOracle :=
  ⟨Except.ok tightBook, 1, 1000, 0, Except.ok ⟨FillStatus.Rejected, 0, 0⟩, t⟩

/-- A snapshot with a bid level and an empty ask side. -/
def bidOnlyBook : Snapshot :=
  ⟨[⟨1/2, 100⟩], []⟩

/-- A snapshot with both sides empty. -/
def emptyBook : Snapshot :=
  ⟨[], []⟩

/-- Oracle wrapping an arbitrary successful snapshot (simulator answers are inert
unless an opportunity actually triggers). -/
def oracleSnap (b : Snapshot) : BookOracle :=
  ⟨Except.ok b, 1, 1000, 0, Except.ok ⟨FillStatus.Filled, 0, 0⟩, 0⟩

/-- Oracle for a book update on `tightBook` whose execution simulator fails. -/
def oracleSimFail : BookOracle :=
  ⟨Except.ok tightBook, 1, 1000, 0, Except.error (Err.sim 7), 5⟩

/-- The demo strategy right after absorbing `tightBook` (both quotes populated). -/
def readyStrategy : SnipeStrategy :=
  applyBookView demoStrategy tightBook 1

/-- The demo strategy holding a crossed market: recorded bid 0.60 above ask 0.50. -/
def crossedStrategy : SnipeStrategy :=
  { demoStrategy with last_best_bid := some (3/5), last_best_ask := some (1/2) }

/-- The request synthesized when the demo strategy snipes `tightBook` with random
draw 0 and `now_millis = 1000`. -/
def buyReq : MarketOrderRequest :=
  ⟨"12345", Side.BUY, 10, some 1, some "snipe_1000"⟩

/-- Helper: `execute_snipe_order` only ever rewrites the `stats` field; every other
strategy field survives unchanged. -/
theorem execute_snipe_order_quotes (s : SnipeStrategy) (bid ask : ℚ) (o : BookOracle) :
    (execute_snipe_order s bid ask o).state.token_id = s.token_id ∧
    (execute_snipe_order s bid ask o).state.last_best_bid = s.last_best_bid ∧
    (execute_snipe_order s bid ask o).state.last_best_ask = s.last_best_ask ∧
    (execute_snipe_order s bid ask o).state.last_update = s.last_update ∧
    (execute_snipe_order s bid ask o).state.stale_threshold = s.stale_threshold := by
  rcases hs : o.simResult with e | r <;> simp [execute_snipe_order, hs]

/-- Helper: `check_opportunities` only ever rewrites the `stats` field; the quote
fields, timestamp and configuration survive unchanged. -/
theorem check_opportunities_quotes (s : SnipeStrategy) (o : BookOracle) :
    (check_opportunities s o).state.token_id = s.token_id ∧
    (check_opportunities s o).state.last_best_bid = s.last_best_bid ∧
    (check_opportunities s o).state.last_best_ask = s.last_best_ask ∧
    (check_opportunities s o).state.last_update = s.last_update ∧
    (check_opportunities s o).state.stale_threshold = s.stale_threshold := by
  rcases hb : s.last_best_bid with _ | bid <;> rcases ha : s.last_best_ask with _ | ask <;>
    simp only [check_opportunities, hb, ha]
  · simp
  · simp
  · simp
  · split_ifs with h1 h2
    · have h := execute_snipe_order_quotes
        { s with stats :=
          { s.stats with opportunities_detected := s.stats.opportunities_detected + 1 } } bid ask o
      simpa [hb, ha] using h
    · simp [hb, ha]
    · simp [hb, ha]

/-- Helper: the quote fields written by `applyBookView`, as a function of the
snapshot's head levels. -/
theorem applyBookView_fields (s : SnipeStrategy) (book : Snapshot) (now : ℕ) :
    (applyBookView s book now).last_best_bid =
      (match book.bids.head? with
       | some lvl => some lvl.price
       | none => s.last_best_bid) ∧
    (applyBookView s book now).last_best_ask =
      (match book.asks.head? with
       | some lvl => some lvl.price
       | none => s.last_best_ask) ∧
    (applyBookView s book now).last_update = now ∧
    (applyBookView s book now).token_id = s.token_id ∧
    (applyBookView s book now).stale_threshold = s.stale_threshold ∧
    (applyBookView s book now).max_spread_pct = s.max_spread_pct ∧
    (applyBookView s book now).stats = s.stats := by
  unfold applyBookView
  cases book.bids.head? <;> cases book.asks.head? <;> simp

/-- Claim C1: refuted on the code — the `avg_fill_time_ms` update at lines 429–433 is
NOT gated on the fill status.  Starting from the demo configuration, a filled order
with latency 10 ms followed by a rejected order with latency 20 ms leaves
`orders_filled = 1` but `avg_fill_time_ms = 20`: the rejected execution re-ran the
update with an unchanged fill count, so the average is no longer the mean (10) of the
single fill latency the claim prescribes. -/
theorem avg_update_not_gated_on_fill :
    (processAll demoStrategy [Ev.bookUpdate "12345" (oracleFill 10)]).stats.orders_filled = 1 ∧
    (processAll demoStrategy [Ev.bookUpdate "12345" (oracleFill 10)]).stats.avg_fill_time_ms = 10 ∧
    (processAll demoStrategy
      [Ev.bookUpdate "12345" (oracleFill 10),
       Ev.bookUpdate "12345" (oracleReject 20)]).stats.orders_filled = 1 ∧
    (processAll demoStrategy
      [Ev.bookUpdate "12345" (oracleFill 10),
       Ev.bookUpdate "12345" (oracleReject 20)]).stats.avg_fill_time_ms = 20 := by
  norm_num +decide [processAll, process_update, process_book_update, applyBookView,
    check_opportunities, execute_snipe_order, updateStatsAfterExec, synthesizeRequest,
    demoStrategy, SnipeStrategy.new, oracleFill, oracleReject, tightBook,
    SnipeStats.default, wrapSub1]

/-- Claim C2: refuted on the code — when the very first simulated execution is not
`Filled`, the unconditional statistics update of lines 429–433 runs with
`orders_filled = 0`: the division denominator is zero and the `u64` subtraction
`orders_filled - 1` underflows (`wrapSub1 0 = 2^64 - 1` under release wrapping;
a panic under debug overflow checks).  `orders_placed = 1` shows the update point
was reached. -/
theorem avg_update_first_reject_denominator_zero :
    (processAll demoStrategy [Ev.bookUpdate "12345" (oracleReject 20)]).stats.orders_placed = 1 ∧
    (processAll demoStrategy [Ev.bookUpdate "12345" (oracleReject 20)]).stats.orders_filled = 0 ∧
    wrapSub1 0 = 2 ^ 64 - 1 := by
  norm_num +decide [processAll, process_update, process_book_update, applyBookView,
    check_opportunities, execute_snipe_order, updateStatsAfterExec, synthesizeRequest,
    demoStrategy, SnipeStrategy.new, oracleReject, tightBook, SnipeStats.default, wrapSub1]

/-- Claim C3, counterexample: a book update whose post-update snapshot has an empty
bid side does NOT reset `last_best_bid` to `none` — after first seeing a bid of 0.50
and then an update leaving both sides empty, `last_best_bid` is still `some 0.50`,
while the claim requires `none` whenever the side is empty. -/
theorem last_best_bid_not_cleared_on_empty_side :
    emptyBook.bids = [] ∧
    (processAll demoStrategy
      [Ev.bookUpdate "12345" (oracleSnap bidOnlyBook),
       Ev.bookUpdate "12345" (oracleSnap emptyBook)]).last_best_bid = some (1/2) := by
  norm_num +decide [processAll, process_update, process_book_update, applyBookView,
    check_opportunities, execute_snipe_order, updateStatsAfterExec, synthesizeRequest,
    demoStrategy, SnipeStrategy.new, oracleSnap, bidOnlyBook, emptyBook,
    SnipeStats.default, wrapSub1]

/-- Claim C3 (amended): after processing a book-update event that the book view
answers successfully, `last_best_bid` equals the price of the first bid level of the
post-update snapshot whenever the bid side is nonempty, and retains its previous
value (rather than being reset to `none`) whenever the bid side is empty;
symmetrically for `last_best_ask`. -/
theorem last_best_quotes_update_rule (s : SnipeStrategy) (o : BookOracle) (book : Snapshot)
    (hb : o.bookResult = Except.ok book) :
    (∀ lvl rest, book.bids = lvl :: rest →
        (process_book_update s o).state.last_best_bid = some lvl.price) ∧
    (book.bids = [] → (process_book_update s o).state.last_best_bid = s.last_best_bid) ∧
    (∀ lvl rest, book.asks = lvl :: rest →
        (process_book_update s o).state.last_best_ask = some lvl.price) ∧
    (book.asks = [] → (process_book_update s o).state.last_best_ask = s.last_best_ask) := by
  have hq := check_opportunities_quotes (applyBookView s book o.now) o
  have hf := applyBookView_fields s book o.now
  refine ⟨?_, ?_, ?_, ?_⟩
  · intro lvl rest hbids
    simp [process_book_update, hb, hq.2.1, hf.1, hbids]
  · intro hbids
    simp [process_book_update, hb, hq.2.1, hf.1, hbids]
  · intro lvl rest hasks
    simp [process_book_update, hb, hq.2.2.1, hf.2.1, hasks]
  · intro hasks
    simp [process_book_update, hb, hq.2.2.1, hf.2.1, hasks]

/-- Witness for the amended C3 rule at a concrete input: an update with a nonempty
bid side and an empty ask side, applied to the demo strategy. -/
theorem last_best_quotes_update_rule_witness :
    (∀ lvl rest, bidOnlyBook.bids = lvl :: rest →
        (process_book_update demoStrategy (oracleSnap bidOnlyBook)).state.last_best_bid
          = some lvl.price) ∧
    (bidOnlyBook.bids = [] →
        (process_book_update demoStrategy (oracleSnap bidOnlyBook)).state.last_best_bid
          = demoStrategy.last_best_bid) ∧
    (∀ lvl rest, bidOnlyBook.asks = lvl :: rest →
        (process_book_update demoStrategy (oracleSnap bidOnlyBook)).state.last_best_ask
          = some lvl.price) ∧
    (bidOnlyBook.asks = [] →
        (process_book_update demoStrategy (oracleSnap bidOnlyBook)).state.last_best_ask
          = demoStrategy.last_best_ask) :=
  last_best_quotes_update_rule demoStrategy (oracleSnap bidOnlyBook) bidOnlyBook rfl

/-- Helper: `execute_snipe_order` always records the synthesized request and never
alters `opportunities_detected`. -/
theorem execute_snipe_order_placed (s : SnipeStrategy) (bid ask : ℚ) (o : BookOracle) :
    (execute_snipe_order s bid ask o).placed = some (synthesizeRequest s bid ask o) ∧
    (execute_snipe_order s bid ask o).state.stats.opportunities_detected
      = s.stats.opportunities_detected := by
  rcases hs : o.simResult with e | r <;>
    simp [execute_snipe_order, hs, updateStatsAfterExec]

/-- Helper: when any of the detection conditions fails, `check_opportunities`
returns `Ok(())` and leaves everything untouched. -/
theorem check_opportunities_no_trigger (s : SnipeStrategy) (o : BookOracle)
    (hno : ¬ ∃ bid ask, s.last_best_bid = some bid ∧ s.last_best_ask = some ask ∧
        0 < bid ∧ bid < ask ∧ (ask - bid) / bid * 100 ≤ s.max_spread_pct) :
    check_opportunities s o = ⟨Except.ok (), s, none, none⟩ := by
  rcases hb : s.last_best_bid with _ | bid <;> rcases ha : s.last_best_ask with _ | ask <;>
    (simp only [check_opportunities, hb, ha]; try rfl)
  split_ifs with h1 h2
  · exact absurd ⟨bid, ask, hb, ha, h1.1, h1.2, h2⟩ hno
  · rfl
  · rfl

/-- Helper: when all detection conditions hold, `check_opportunities` increments
`opportunities_detected` and hands over to `execute_snipe_order`. -/
theorem check_opportunities_trigger (s : SnipeStrategy) (o : BookOracle) (bid ask : ℚ)
    (hb : s.last_best_bid = some bid) (ha : s.last_best_ask = some ask)
    (hpos : 0 < bid) (hlt : bid < ask)
    (hspread : (ask - bid) / bid * 100 ≤ s.max_spread_pct) :
    check_opportunities s o =
      execute_snipe_order
        { s with stats :=
          { s.stats with opportunities_detected := s.stats.opportunities_detected + 1 } }
        bid ask o := by
  simp only [check_opportunities, hb, ha]
  rw [if_pos ⟨hpos, hlt⟩, if_pos hspread]

/-- Claim C4: an opportunity is detected (`opportunities_detected` incremented and an
order synthesized) if and only if both quotes are present, the bid is positive, the
ask is strictly above the bid, and the spread percentage `(ask - bid) / bid * 100`
is at most `max_spread_pct` (boundary inclusive); and whenever any condition fails,
`check_opportunities` changes no state at all. -/
theorem opportunity_detection_iff (s : SnipeStrategy) (o : BookOracle) :
    (((check_opportunities s o).placed.isSome = true ∧
      (check_opportunities s o).state.stats.opportunities_detected
        = s.stats.opportunities_detected + 1) ↔
      (∃ bid ask, s.last_best_bid = some bid ∧ s.last_best_ask = some ask ∧
        0 < bid ∧ bid < ask ∧ (ask - bid) / bid * 100 ≤ s.max_spread_pct)) ∧
    ((¬ ∃ bid ask, s.last_best_bid = some bid ∧ s.last_best_ask = some ask ∧
        0 < bid ∧ bid < ask ∧ (ask - bid) / bid * 100 ≤ s.max_spread_pct) →
      check_opportunities s o = ⟨Except.ok (), s, none, none⟩) := by
  by_cases hdet : ∃ bid ask, s.last_best_bid = some bid ∧ s.last_best_ask = some ask ∧
      0 < bid ∧ bid < ask ∧ (ask - bid) / bid * 100 ≤ s.max_spread_pct
  · obtain ⟨bid, ask, hb, ha, hpos, hlt, hspread⟩ := hdet
    have ht := check_opportunities_trigger s o bid ask hb ha hpos hlt hspread
    have he := execute_snipe_order_placed
      { s with stats :=
        { s.stats with opportunities_detected := s.stats.opportunities_detected + 1 } }
      bid ask o
    constructor
    · constructor
      · intro _
        exact ⟨bid, ask, hb, ha, hpos, hlt, hspread⟩
      · intro _
        constructor
        · rw [ht, he.1]
          rfl
        · rw [ht, he.2]
    · intro hno
      exact absurd ⟨bid, ask, hb, ha, hpos, hlt, hspread⟩ hno
  · have hn := check_opportunities_no_trigger s o hdet
    refine ⟨⟨fun hL => ?_, fun hR => absurd hR hdet⟩, fun _ => hn⟩
    rw [hn] at hL
    simp at hL

/-- Witness for C4 at a concrete triggering input: the demo configuration holding
the boundary-spread book (bid 0.50, ask 0.51, threshold 2%). -/
theorem opportunity_detection_iff_witness :
    (((check_opportunities readyStrategy (oracleFill 10)).placed.isSome = true ∧
      (check_opportunities readyStrategy (oracleFill 10)).state.stats.opportunities_detected
        = readyStrategy.stats.opportunities_detected + 1) ↔
      (∃ bid ask, readyStrategy.last_best_bid = some bid ∧
        readyStrategy.last_best_ask = some ask ∧
        0 < bid ∧ bid < ask ∧ (ask - bid) / bid * 100 ≤ readyStrategy.max_spread_pct)) ∧
    ((¬ ∃ bid ask, readyStrategy.last_best_bid = some bid ∧
        readyStrategy.last_best_ask = some ask ∧
        0 < bid ∧ bid < ask ∧ (ask - bid) / bid * 100 ≤ readyStrategy.max_spread_pct) →
      check_opportunities readyStrategy (oracleFill 10)
        = ⟨Except.ok (), readyStrategy, none, none⟩) :=
  opportunity_detection_iff readyStrategy (oracleFill 10)

/-- Claim C5: when the execution-simulator call fails while processing a book-update
event, the same error value is returned by `process_update`, and the state the caller
sees is exactly the intermediate state reached just before the failing call — book
view absorbed, timestamp stamped and `opportunities_detected` incremented, with
`orders_placed`, `orders_filled`, `avg_fill_time_ms`, `total_volume` and `total_pnl`
all untouched. -/
theorem sim_error_propagates_without_stat_update (s : SnipeStrategy) (o : BookOracle)
    (book : Snapshot) (e : Err) (bid ask : ℚ)
    (hbook : o.bookResult = Except.ok book) (hsim : o.simResult = Except.error e)
    (hbid : (applyBookView s book o.now).last_best_bid = some bid)
    (hask : (applyBookView s book o.now).last_best_ask = some ask)
    (hpos : 0 < bid) (hlt : bid < ask)
    (hspread : (ask - bid) / bid * 100 ≤ s.max_spread_pct) :
    (process_update s (Ev.bookUpdate s.token_id o)).res = Except.error e ∧
    (process_update s (Ev.bookUpdate s.token_id o)).state
      = { applyBookView s book o.now with stats :=
          { s.stats with opportunities_detected := s.stats.opportunities_detected + 1 } } ∧
    (process_update s (Ev.bookUpdate s.token_id o)).state.stats.orders_placed
      = s.stats.orders_placed ∧
    (process_update s (Ev.bookUpdate s.token_id o)).state.stats.orders_filled
      = s.stats.orders_filled ∧
    (process_update s (Ev.bookUpdate s.token_id o)).state.stats.avg_fill_time_ms
      = s.stats.avg_fill_time_ms ∧
    (process_update s (Ev.bookUpdate s.token_id o)).state.stats.total_volume
      = s.stats.total_volume ∧
    (process_update s (Ev.bookUpdate s.token_id o)).state.stats.total_pnl
      = s.stats.total_pnl := by
  obtain ⟨-, -, -, -, -, hcfg, hstats⟩ := applyBookView_fields s book o.now
  have ht := check_opportunities_trigger (applyBookView s book o.now) o bid ask hbid hask
    hpos hlt (by rw [hcfg]; exact hspread)
  have hstep : process_update s (Ev.bookUpdate s.token_id o)
      = execute_snipe_order
          { applyBookView s book o.now with stats :=
            { s.stats with opportunities_detected := s.stats.opportunities_detected + 1 } }
          bid ask o := by
    simp only [process_update, eq_self_iff_true, if_true, process_book_update, hbook, ht, hstats]
  rw [hstep]
  simp [execute_snipe_order, hsim]

/-- Witness for C5: the demo strategy processes a tight book whose simulated
execution fails with error `sim 7`; the error surfaces and no statistic moves. -/
theorem sim_error_propagates_without_stat_update_witness :
    (process_update demoStrategy (Ev.bookUpdate demoStrategy.token_id oracleSimFail)).res
      = Except.error (Err.sim 7) ∧
    (process_update demoStrategy (Ev.bookUpdate demoStrategy.token_id oracleSimFail)).state
      = { applyBookView demoStrategy tightBook oracleSimFail.now with stats :=
          { demoStrategy.stats with
              opportunities_detected := demoStrategy.stats.opportunities_detected + 1 } } ∧
    (process_update demoStrategy
        (Ev.bookUpdate demoStrategy.token_id oracleSimFail)).state.stats.orders_placed
      = demoStrategy.stats.orders_placed ∧
    (process_update demoStrategy
        (Ev.bookUpdate demoStrategy.token_id oracleSimFail)).state.stats.orders_filled
      = demoStrategy.stats.orders_filled ∧
    (process_update demoStrategy
        (Ev.bookUpdate demoStrategy.token_id oracleSimFail)).state.stats.avg_fill_time_ms
      = demoStrategy.stats.avg_fill_time_ms ∧
    (process_update demoStrategy
        (Ev.bookUpdate demoStrategy.token_id oracleSimFail)).state.stats.total_volume
      = demoStrategy.stats.total_volume ∧
    (process_update demoStrategy
        (Ev.bookUpdate demoStrategy.token_id oracleSimFail)).state.stats.total_pnl
      = demoStrategy.stats.total_pnl :=
  sim_error_propagates_without_stat_update demoStrategy oracleSimFail tightBook (Err.sim 7)
    (1/2) (51/100) rfl rfl
    (by norm_num [applyBookView, demoStrategy, SnipeStrategy.new, tightBook, oracleSimFail])
    (by norm_num [applyBookView, demoStrategy, SnipeStrategy.new, tightBook, oracleSimFail])
    (by norm_num) (by norm_num)
    (by norm_num [demoStrategy, SnipeStrategy.new])

/-- Claim C6: the staleness age saturates at zero instead of underflowing, staleness
is reported exactly when `age > stale_threshold`, heartbeats invoke the monitor
without mutating any state, and a successful book update stamps `last_update` with
the current time, after which the monitor reports fresh at that same instant for
every threshold. -/
theorem staleness_monitor_correct :
    (∀ now lu : ℕ, now < lu → staleAge now lu = 0) ∧
    (∀ (s : SnipeStrategy) (now : ℕ),
        check_stale_quotes s now = true ↔ s.stale_threshold < staleAge now s.last_update) ∧
    (∀ (s : SnipeStrategy) (now : ℕ),
        process_update s (Ev.heartbeat now)
          = ⟨Except.ok (), s, none, some (check_stale_quotes s now)⟩) ∧
    (∀ (s : SnipeStrategy) (o : BookOracle) (book : Snapshot),
        o.bookResult = Except.ok book →
        (process_book_update s o).state.last_update = o.now ∧
        check_stale_quotes (process_book_update s o).state o.now = false) := by
  refine ⟨?_, ?_, ?_, ?_⟩
  · intro now lu h
    exact Nat.sub_eq_zero_of_le (le_of_lt h)
  · intro s now
    simp [check_stale_quotes, staleAge]
  · intro s now
    rfl
  · intro s o book hbook
    obtain ⟨-, -, hlu0, -, hth0, -, -⟩ :=
      applyBookView_fields s book o.now
    obtain ⟨-, -, -, hlu1, hth1⟩ := check_opportunities_quotes (applyBookView s book o.now) o
    have hlu : (process_book_update s o).state.last_update = o.now := by
      simp [process_book_update, hbook, hlu1, hlu0]
    have hth : (process_book_update s o).state.stale_threshold = s.stale_threshold := by
      simp [process_book_update, hbook, hth1, hth0]
    refine ⟨hlu, ?_⟩
    simp [check_stale_quotes, staleAge, hlu, hth]

/-- Witness for C6: saturation at `now = 3 < 5 = last_update`, reporting on the demo
strategy at time 11, the heartbeat route, and the reset after absorbing `tightBook`. -/
theorem staleness_monitor_correct_witness :
    staleAge 3 5 = 0 ∧
    (check_stale_quotes demoStrategy 11 = true ↔
      demoStrategy.stale_threshold < staleAge 11 demoStrategy.last_update) ∧
    (process_update demoStrategy (Ev.heartbeat 11)
      = ⟨Except.ok (), demoStrategy, none, some (check_stale_quotes demoStrategy 11)⟩) ∧
    ((process_book_update demoStrategy (oracleSnap tightBook)).state.last_update
        = (oracleSnap tightBook).now ∧
     check_stale_quotes (process_book_update demoStrategy (oracleSnap tightBook)).state
        (oracleSnap tightBook).now = false) :=
  ⟨staleness_monitor_correct.1 3 5 (by norm_num),
   staleness_monitor_correct.2.1 demoStrategy 11,
   staleness_monitor_correct.2.2.1 demoStrategy 11,
   staleness_monitor_correct.2.2.2 demoStrategy (oracleSnap tightBook) tightBook rfl⟩

/-- Claim C7: the random factor drawn at line 358 always lies in `[0, 1)` (it has
two-decimal granularity, `k/100` with `k < 100`), and whenever
`min_order_size ≤ max_order_size` the synthesized size
`min + (max - min) * r` lies in `[min, max]`, inclusive of the lower bound. -/
theorem order_size_within_bounds (minSize maxSize : ℚ) (rand : ℕ)
    (hle : minSize ≤ maxSize) :
    0 ≤ random_factor rand ∧ random_factor rand < 1 ∧
    minSize ≤ snipeOrderSize minSize maxSize rand ∧
    snipeOrderSize minSize maxSize rand ≤ maxSize := by
  have h0 : (0 : ℚ) ≤ random_factor rand := by
    unfold random_factor
    positivity
  have h1 : random_factor rand < 1 := by
    unfold random_factor
    rw [div_lt_one (by norm_num)]
    exact_mod_cast Nat.mod_lt rand (by norm_num)
  refine ⟨h0, h1, ?_, ?_⟩
  · unfold snipeOrderSize
    nlinarith [mul_nonneg (sub_nonneg.mpr hle) h0]
  · unfold snipeOrderSize
    nlinarith [mul_le_of_le_one_right (sub_nonneg.mpr hle) (le_of_lt h1)]

/-- Witness for C7 at the spec's own scenario: bounds 10 and 100 with a draw of 57
(`r = 0.57`). -/
theorem order_size_within_bounds_witness :
    0 ≤ random_factor 57 ∧ random_factor 57 < 1 ∧
    (10 : ℚ) ≤ snipeOrderSize 10 100 57 ∧ snipeOrderSize 10 100 57 ≤ 100 :=
  order_size_within_bounds 10 100 57 (by norm_num)

/-- Helper: one `check_opportunities` call preserves `orders_filled ≤ orders_placed`
(an execution adds 1 to `orders_placed` and at most 1 to `orders_filled`). -/
theorem check_opportunities_filled_le (s : SnipeStrategy) (o : BookOracle)
    (h : s.stats.orders_filled ≤ s.stats.orders_placed) :
    (check_opportunities s o).state.stats.orders_filled
      ≤ (check_opportunities s o).state.stats.orders_placed := by
  rcases hb : s.last_best_bid with _ | bid <;> rcases ha : s.last_best_ask with _ | ask <;>
    simp only [check_opportunities, hb, ha]
  · exact h
  · exact h
  · exact h
  · split_ifs with h1 h2
    · rcases hs : o.simResult with e | r <;>
        simp [execute_snipe_order, hs, updateStatsAfterExec]
      · exact h
      · split_ifs with hstatus
        · exact Nat.succ_le_succ h
        · exact Nat.le_succ_of_le h
    · exact h
    · exact h

/-- Helper: one `process_update` call preserves `orders_filled ≤ orders_placed`. -/
theorem process_update_filled_le (s : SnipeStrategy) (e : Ev)
    (h : s.stats.orders_filled ≤ s.stats.orders_placed) :
    (process_update s e).state.stats.orders_filled
      ≤ (process_update s e).state.stats.orders_placed := by
  rcases e with ⟨tid, o⟩ | ⟨tid, size⟩ | now | _
  · by_cases ht : tid = s.token_id
    · simp only [process_update, if_pos ht]
      rcases hb : o.bookResult with e' | book
      · simpa [process_book_update, hb] using h
      · simp only [process_book_update, hb]
        apply check_opportunities_filled_le
        obtain ⟨-, -, -, -, -, -, hstats⟩ := applyBookView_fields s book o.now
        rw [hstats]
        exact h
    · simpa [process_update, ht] using h
  · by_cases ht : tid = s.token_id <;>
      simpa [process_update, ht, process_trade] using h
  · simpa [process_update] using h
  · simpa [process_update] using h

/-- Claim C8: `orders_filled ≤ orders_placed` holds in every reachable strategy
state — after any sequence of processed events starting from a freshly constructed
strategy (both counters zero). -/
theorem orders_filled_le_orders_placed (tid : String) (msp mins maxs : ℚ) (st : ℕ)
    (es : List Ev) :
    (processAll (SnipeStrategy.new tid msp mins maxs st) es).stats.orders_filled
      ≤ (processAll (SnipeStrategy.new tid msp mins maxs st) es).stats.orders_placed := by
  have general : ∀ (l : List Ev) (s : SnipeStrategy),
      s.stats.orders_filled ≤ s.stats.orders_placed →
      (processAll s l).stats.orders_filled ≤ (processAll s l).stats.orders_placed := by
    intro l
    induction l with
    | nil =>
        intro s h
        simpa [processAll] using h
    | cons ev rest ih =>
        intro s h
        simp only [processAll, List.foldl_cons]
        exact ih (process_update s ev).state (process_update_filled_le s ev h)
  exact general es _ (by simp [SnipeStrategy.new, SnipeStats.default])

/-- Claim C9: the synthesized side is SELL exactly on a crossed book (`bid > ask`)
and BUY otherwise, and a crossed market recorded in the quotes never triggers
standard opportunity detection (state untouched, nothing synthesized). -/
theorem side_selection_and_crossed_markets :
    (∀ bid ask : ℚ, ask < bid → snipeSide bid ask = Side.SELL) ∧
    (∀ bid ask : ℚ, bid ≤ ask → snipeSide bid ask = Side.BUY) ∧
    (∀ (s : SnipeStrategy) (o : BookOracle) (bid ask : ℚ),
        s.last_best_bid = some bid → s.last_best_ask = some ask → ask < bid →
        check_opportunities s o = ⟨Except.ok (), s, none, none⟩) := by
  refine ⟨?_, ?_, ?_⟩
  · intro bid ask h
    simp [snipeSide, h]
  · intro bid ask h
    simp [snipeSide, not_lt.mpr h]
  · intro s o bid ask hb ha hcross
    apply check_opportunities_no_trigger
    rintro ⟨bid', ask', hb', ha', -, hlt', -⟩
    rw [hb] at hb'
    rw [ha] at ha'
    injection hb' with hb2
    injection ha' with ha2
    subst hb2
    subst ha2
    exact absurd hlt' (not_lt.mpr (le_of_lt hcross))

/-- Witness for C9: side selection at 3 > 2 and 2 ≤ 3, and no detection on the demo
strategy holding bid 0.60 above ask 0.50. -/
theorem side_selection_and_crossed_markets_witness :
    snipeSide 3 2 = Side.SELL ∧ snipeSide 2 3 = Side.BUY ∧
    check_opportunities crossedStrategy (oracleFill 10)
      = ⟨Except.ok (), crossedStrategy, none, none⟩ :=
  ⟨side_selection_and_crossed_markets.1 3 2 (by norm_num),
   side_selection_and_crossed_markets.2.1 2 3 (by norm_num),
   side_selection_and_crossed_markets.2.2 crossedStrategy (oracleFill 10) (3/5) (1/2)
     rfl rfl (by norm_num)⟩

/-- Helper: any request recorded by `check_opportunities` has side BUY, because the
detection guard requires `ask > bid` and side selection only picks SELL on
`bid > ask`. -/
theorem check_opportunities_placed_side (s : SnipeStrategy) (o : BookOracle)
    (req : MarketOrderRequest) (h : (check_opportunities s o).placed = some req) :
    req.side = Side.BUY := by
  rcases hb : s.last_best_bid with _ | bid <;> rcases ha : s.last_best_ask with _ | ask <;>
    simp only [check_opportunities, hb, ha] at h
  · simp at h
  · simp at h
  · simp at h
  · split_ifs at h with h1 h2
    · rcases hs : o.simResult with e | r <;>
        simp only [execute_snipe_order, hs, Option.some.injEq] at h <;>
        rw [← h] <;>
        simp [synthesizeRequest, snipeSide, lt_asymm h1.2]

/-- Claim C10: every order synthesized through the public entry point
`process_update` has side BUY — the SELL branch of the side-selection rule is
unreachable from the public interface, because synthesis is only invoked from
opportunity detection, which requires `ask > bid`. -/
theorem public_interface_orders_are_buy (s : SnipeStrategy) (e : Ev)
    (req : MarketOrderRequest) (h : (process_update s e).placed = some req) :
    req.side = Side.BUY := by
  rcases e with ⟨tid, o⟩ | ⟨tid, size⟩ | now | _
  · by_cases ht : tid = s.token_id
    · simp only [process_update, if_pos ht] at h
      rcases hb : o.bookResult with e' | book
      · simp [process_book_update, hb] at h
      · simp only [process_book_update, hb] at h
        exact check_opportunities_placed_side _ o req h
    · simp [process_update, ht] at h
  · by_cases ht : tid = s.token_id <;> simp [process_update, ht] at h
  · simp [process_update] at h
  · simp [process_update] at h

/-- Witness for C10: the demo strategy sniping `tightBook` with draw 0 places
exactly `buyReq`, whose side is BUY. -/
theorem public_interface_orders_are_buy_witness :
    (process_update demoStrategy (Ev.bookUpdate "12345" (oracleFill 10))).placed
      = some buyReq ∧ buyReq.side = Side.BUY := by
  have h : (process_update demoStrategy (Ev.bookUpdate "12345" (oracleFill 10))).placed
      = some buyReq := by
    norm_num +decide [process_update, process_book_update, applyBookView, check_opportunities,
      execute_snipe_order, updateStatsAfterExec, synthesizeRequest, snipeOrderSize,
      random_factor, snipeSide, demoStrategy, SnipeStrategy.new, oracleFill, tightBook,
      SnipeStats.default, buyReq]
  exact ⟨h, public_interface_orders_are_buy demoStrategy
    (Ev.bookUpdate "12345" (oracleFill 10)) buyReq h⟩

end PolyfillSnipe
